import Mathlib

/-!
Shallow embedding of the dependency-graph viewer client
(`src/unnamed/part_000`, the full `script.js` of the repository).

The embedding models the mutable `state` object as an explicit `AppState`
record, and each source function as a state transformer.  DOM-only effects
(class toggling, option-element construction, button enabling, innerHTML
formatting) are not part of the logical state and are noted in the doc
comments of the functions that perform them.  Asynchronous `fetch` results
are passed in as explicit `Option` parameters: `none` models a rejected
promise / non-2xx response / malformed JSON (all of which reach the same
`catch` in the source), `some payload` models a successful parsed response.
-/

set_option maxHeartbeats 1000000

namespace BeanAnalyze

/-- JS truthiness of a string: only the empty string is falsy. -/
def strTruthy (s : String) : Bool := s != ""

/-- JS truthiness of a nullable string: `null`/`undefined` and `""` are falsy. -/
def optStrTruthy : Option String → Bool
  | some s => strTruthy s
  | none => false

/-- JS `a || b` on nullable strings (first truthy operand, else the second). -/
def orTruthy (a b : Option String) : Option String :=
  if optStrTruthy a then a else b

/-- `needle` is a prefix of `hay` (character lists). -/
def charsStarts : List Char → List Char → Bool
  | [], _ => true
  | _ :: _, [] => false
  | a :: as, b :: bs => a == b && charsStarts as bs

/-- `needle` occurs contiguously in `hay` (character lists). -/
def charsIncl (needle : List Char) : List Char → Bool
  | [] => charsStarts needle []
  | c :: rest => charsStarts needle (c :: rest) || charsIncl needle rest

/-- JS `hay.includes(needle)` (substring test). -/
def jsIncludes (hay needle : String) : Bool :=
  charsIncl needle.data hay.data

/-- JS `s.toLowerCase()` (character-wise lowering; ids in this application
are ASCII bean names, for which this coincides with JS semantics). -/
def toLowerStr (s : String) : String := String.mk (s.data.map Char.toLower)

/-- JS `s.trim()`: strip leading and trailing whitespace. -/
def jsTrim (s : String) : String :=
  String.mk
    (((s.data.dropWhile Char.isWhitespace).reverse.dropWhile
        Char.isWhitespace).reverse)

/-- JS `%` (remainder truncated toward zero, sign of the dividend). -/
def jsMod (a b : Int) : Int := Int.tmod a b

/-- One graph node as delivered by the provider (`data.nodes[i]`).
`x`/`y`/`fx`/`fy` are layout-engine-owned and not part of the logical node. -/
structure Node where
  id : String
  label : String
  dependencies : List String
  dependents : List String
  isRoot : Bool
  hasDependencies : Bool
  missing : Bool
  dependentCount : Nat
deriving DecidableEq

/-- One third-party package record; the source duck-types the identifier as
`pkg.package || pkg.name || pkg.id`.  (`packageField` stands for the
`package` property.)  `beanCount` feeds only the option label text. -/
structure PackageInfo where
  packageField : Option String
  name : Option String
  id : Option String
  beanCount : Option Nat
deriving DecidableEq

/-- `data.chainSummary` of a graph-data response. -/
structure ChainSummary where
  root : Option String
  nodeCount : Nat
  leafCount : Nat
  isUnused : Bool
  externalReferencerCount : Nat
  externallyReferencedNodes : Nat
deriving DecidableEq

/-- One entry of `data.unusedChains` of a roots response. -/
structure UnusedChainInfo where
  root : String
  nodeCount : Nat
  leafCount : Nat
deriving DecidableEq

/-- Parsed body of a successful `GET /graph-data` response. -/
structure GraphData where
  nodes : List Node
  edges : List (String × String)
  roots : List String
  chainSummary : Option ChainSummary
  isUnusedChain : Bool
  thirdPartyPackages : Option (List PackageInfo)
deriving DecidableEq

/-- Parsed body of a successful `GET /roots` response; the source defaults
each missing field with `|| []`, hence the `Option` wrappers. -/
structure RootsPayload where
  roots : Option (List String)
  unusedChains : Option (List UnusedChainInfo)
  thirdPartyPackages : Option (List PackageInfo)
deriving DecidableEq

/-- The distinct status-bar messages `setStatus` is called with.  Chinese
display text is identified by constructor; parameterized messages carry the
data interpolated into them.  `custom` is a caller-supplied
`messageWhenCleared` string. -/
inductive StatusMsg where
  | selectEndpointWarn
  | loadingRoots
  | chooseRootPrompt
  | noRootsFound
  | rootsLoadFailed
  | loadingGraph (root : Option String)
  | graphLoaded (root : Option String) (nodeCount : Nat)
  | graphLoadFailed
  | searchLoadFirst
  | searchPrompt
  | searchFound (pos total : Nat) (id : String)
  | searchNoMatch
  | stepPrompt
  | stepView (pos total : Nat) (id : String)
  | notInView
  | viewReset
  | custom (s : String)
deriving DecidableEq

/-- The zoom/pan transform of the svg, as far as the logic drives it:
`centeredOn id` is the 1.5×-scale transform translating node `id` to the
viewport center (`highlightNode` with centering); `identityT` is
`d3.zoomIdentity` (`resetView`).  Free pan/zoom by the user is not modeled. -/
inductive Transform where
  | initial
  | identityT
  | centeredOn (id : String)
deriving DecidableEq

/-- The numbers shown in the four stat boxes (`stat-nodes`, `stat-edges`,
`stat-roots`, `stat-unused`). -/
structure StatsDisplay where
  nodes : Nat
  edges : Nat
  roots : Nat
  unused : Nat
deriving DecidableEq

/-- The mutable `state` object plus the DOM state the logic reads back
(`select.value`, placeholder visibility, detail-panel subject, status bar).
`nodeSelection` is `none` when the d3 selection is null and `some ns` when a
graph with node list `ns` is rendered; `nodeById` mirrors the `Map`.
`svgSet`/`zoomSet` model nullness of `state.svg`/`state.zoom`;
`simulationOn` models a live `state.simulation`. -/
structure AppState where
  roots : List String
  currentRoot : Option String
  graphData : Option GraphData
  svgSet : Bool
  zoomSet : Bool
  simulationOn : Bool
  nodeSelection : Option (List Node)
  nodeById : List Node
  highlightedNode : Option String
  unusedChains : List UnusedChainInfo
  chainSummary : Option ChainSummary
  excludeSpring : Bool
  excludeThirdParty : Bool
  availableThirdPartyPackages : List PackageInfo
  selectedThirdPartyPackages : List String
  searchTerm : String
  searchMatches : List String
  searchIndex : Int
  status : Option (StatusMsg × String)
  selectValue : String
  placeholder : Option String
  detailsNode : Option String
  transform : Transform
  stats : StatsDisplay
deriving DecidableEq

/-- The initial `const state = {...}` literal (DOM-backed fields start
empty/hidden as in the initial document). -/
def initState : AppState where
  roots := []
  currentRoot := none
  graphData := none
  svgSet := false
  zoomSet := false
  simulationOn := false
  nodeSelection := none
  nodeById := []
  highlightedNode := none
  unusedChains := []
  chainSummary := none
  excludeSpring := false
  excludeThirdParty := false
  availableThirdPartyPackages := []
  selectedThirdPartyPackages := []
  searchTerm := ""
  searchMatches := []
  searchIndex := -1
  status := none
  selectValue := ""
  placeholder := none
  detailsNode := none
  transform := .initial
  stats := ⟨0, 0, 0, 0⟩

/-- `setStatus(message, level)`. -/
def setStatus (msg : StatusMsg) (level : String) (st : AppState) : AppState :=
  { st with status := some (msg, level) }

/-- `state.nodeById.get(id)` (the map is keyed by node id). -/
def findNode (nodes : List Node) (id : String) : Option Node :=
  nodes.find? (fun n => n.id == id)

/-- `getAllThirdPartyPackageIds()` :
`packages.map(pkg => pkg.package || pkg.name || pkg.id).filter(Boolean)`. -/
def getAllThirdPartyPackageIds (st : AppState) : List String :=
  ((st.availableThirdPartyPackages.map
      (fun pkg => orTruthy pkg.packageField (orTruthy pkg.name pkg.id))).filterMap
    (fun v => if optStrTruthy v then v else none))

/-- `renderThirdPartyPackageOptions()` — state effect only: when a selection
exists it is filtered down to the currently available package values.  The
container hiding, `select.size`, and option-element construction are DOM. -/
def renderThirdPartyPackageOptions (st : AppState) : AppState :=
  let availableValues := getAllThirdPartyPackageIds st
  if st.selectedThirdPartyPackages.length != 0 then
    { st with selectedThirdPartyPackages :=
        st.selectedThirdPartyPackages.filter (fun v => availableValues.contains v) }
  else st

/-- `resetStatsDisplay()`: zero the node/edge boxes, re-show the current
roots/unused counts. -/
def resetStatsDisplay (st : AppState) : AppState :=
  { st with stats :=
      { nodes := 0, edges := 0,
        roots := st.roots.length, unused := st.unusedChains.length } }

/-- `updateStats(data)`. -/
def updateStats (data : GraphData) (st : AppState) : AppState :=
  { st with stats :=
      { nodes := data.nodes.length, edges := data.edges.length,
        roots := data.roots.length, unused := st.unusedChains.length } }

/-- `loadRoots(options)`: `resp = none` is the catch branch (fetch rejection,
non-2xx, or JSON parse failure).  Returns the new state and the boolean the
source returns.  `populateRootSelect` leaves the select on its value-less
placeholder, i.e. `select.value = ""`, before the optional restore.
`renderUnusedChains`, `updateChainSummary` and `updateSearchNavButtons` only
redraw DOM from state. -/
def loadRoots (preserveSelection : Bool) (resp : Option RootsPayload)
    (st : AppState) : AppState × Bool :=
  let previousValue := if preserveSelection then st.selectValue else ""
  let st := setStatus .loadingRoots "info" st
  match resp with
  | some data =>
    let st := { st with
      roots := data.roots.getD [],
      unusedChains := data.unusedChains.getD [],
      availableThirdPartyPackages := data.thirdPartyPackages.getD [] }
    let st := renderThirdPartyPackageOptions st
    let st := { st with selectValue := "" }
    let st :=
      if preserveSelection && strTruthy previousValue &&
          st.roots.contains previousValue then
        { st with selectValue := previousValue }
      else st
    let st := { st with stats :=
      { st.stats with unused := st.unusedChains.length, roots := st.roots.length } }
    let st :=
      if st.roots.length != 0 then setStatus .chooseRootPrompt "info" st
      else setStatus .noRootsFound "warn" st
    (st, true)
  | none =>
    let st := setStatus .rootsLoadFailed "error" st
    let st := { st with roots := [], unusedChains := [],
                        availableThirdPartyPackages := [] }
    let st := renderThirdPartyPackageOptions st
    let st := resetStatsDisplay st
    (st, false)

/-- `showDetails(node)` — the panel subject; the HTML projection of the
metadata and the relation lists is presentation. -/
def showDetails (node : Option Node) (st : AppState) : AppState :=
  { st with detailsNode := node.map (fun n => n.id) }

/-- `highlightNode(nodeId, center)`: early-returns when no node selection is
rendered; otherwise records the highlighted node (stroke decoration is DOM)
and, when centering is requested for a truthy id with live zoom/svg and the
id is present in the rendered selection, installs the centered transform. -/
def highlightNode (nodeId : Option String) (center : Bool)
    (st : AppState) : AppState :=
  match st.nodeSelection with
  | none => st
  | some ns =>
    let st := { st with highlightedNode := nodeId }
    if center && optStrTruthy nodeId && st.zoomSet && st.svgSet then
      if ns.any (fun d => d.id == nodeId.getD "") then
        { st with transform := .centeredOn (nodeId.getD "") }
      else st
    else st

/-- `clearGraphView(message)`: stop the simulation, blank the svg, show the
placeholder with `message || default`, drop selections/map/highlight and the
search match state; `highlightNode(null)` then no-ops (selection is null) and
`showDetails()` resets the panel. -/
def clearGraphView (message : Option String) (st : AppState) : AppState :=
  let st := { st with simulationOn := false }
  let st := { st with svgSet := true, zoomSet := false }
  let msg := if optStrTruthy message then message.getD ""
             else "请选择一个起点并点击“加载链路”。"
  let st := { st with placeholder := some msg }
  let st := { st with nodeSelection := none, nodeById := [],
                      highlightedNode := none,
                      searchMatches := [], searchIndex := -1 }
  let st := highlightNode none false st
  showDetails none st

/-- `buildGraph(data)`: with no nodes, show the empty placeholder and null
out the selection/map (the old simulation is NOT stopped on this early
return); otherwise (re)build the rendering, zoom and simulation, publish the
selection and id map, and clear highlight/details.  Markers, drag handlers
and force parameters are rendering/physics, outside the logical state. -/
def buildGraph (data : GraphData) (st : AppState) : AppState :=
  if data.nodes.length = 0 then
    let st := { st with placeholder := some "当前选择没有任何节点。",
                        nodeSelection := none, nodeById := [] }
    showDetails none st
  else
    let st := { st with placeholder := none }
    let st := { st with simulationOn := true, svgSet := true, zoomSet := true,
                        nodeSelection := some data.nodes,
                        nodeById := data.nodes,
                        highlightedNode := none }
    let st := highlightNode none false st
    showDetails none st

/-- The recurring `const node = state.nodeById.get(id); if (node)
showDetails(node);` sequence. -/
def showDetailsIfFound (nodeId : String) (st : AppState) : AppState :=
  match findNode st.nodeById nodeId with
  | some node => showDetails (some node) st
  | none => st

/-- `applySearchTerm({resetIndex, centerOnMatch})`.  The d3 `classed`
callback that pushes into `matches` while toggling the `matched` class is the
filter over the rendered node list in iteration order. -/
def applySearchTerm (resetIndex centerOnMatch : Bool) (st : AppState) : AppState :=
  match st.nodeSelection with
  | none => { st with searchMatches := [], searchIndex := -1 }
  | some ns =>
    let term := toLowerStr st.searchTerm
    let hasTerm := strTruthy term
    let matchList :=
      (ns.filter (fun d => hasTerm && jsIncludes (toLowerStr d.id) term)).map
        (fun d => d.id)
    let st := { st with searchMatches := matchList }
    let st :=
      if resetIndex then
        { st with searchIndex := if matchList.length != 0 then 0 else -1 }
      else if st.searchIndex ≥ (matchList.length : Int) then
        { st with searchIndex :=
            if matchList.length != 0 then (matchList.length : Int) - 1 else -1 }
      else st
    if hasTerm && matchList.length != 0 then
      let st := if st.searchIndex < 0 then { st with searchIndex := 0 } else st
      let nodeId := matchList.getD st.searchIndex.toNat ""
      let st := highlightNode (some nodeId) centerOnMatch st
      let st := showDetailsIfFound nodeId st
      setStatus (.searchFound (st.searchIndex.toNat + 1) matchList.length nodeId)
        "success" st
    else if hasTerm then
      setStatus .searchNoMatch "warn" (highlightNode none false st)
    else
      setStatus .searchPrompt "info" (highlightNode none false st)

/-- `handleSearchInput()` reading the input box value. -/
def handleSearchInput (inputValue : String) (st : AppState) : AppState :=
  let st := { st with searchTerm := jsTrim inputValue }
  match st.nodeSelection with
  | none =>
    let st := { st with searchMatches := [], searchIndex := -1 }
    if strTruthy st.searchTerm then setStatus .searchLoadFirst "warn" st
    else setStatus .searchPrompt "info" st
  | some _ => applySearchTerm true true st

/-- `stepSearch(offset)`; in the source `offset` is `1` or `-1`. -/
def stepSearch (offset : Int) (st : AppState) : AppState :=
  if st.nodeSelection.isNone || st.searchMatches.length = 0 then
    if strTruthy st.searchTerm then setStatus .searchNoMatch "warn" st
    else setStatus .stepPrompt "info" st
  else
    let total : Int := st.searchMatches.length
    let idx0 := if st.searchIndex < 0 then 0 else st.searchIndex
    let idx := jsMod (idx0 + offset + total) total
    let st := { st with searchIndex := idx }
    let nodeId := st.searchMatches.getD idx.toNat ""
    let st := highlightNode (some nodeId) true st
    let st := showDetailsIfFound nodeId st
    setStatus (.stepView (idx.toNat + 1) st.searchMatches.length nodeId)
      "success" st

/-- `resetView()` (the search input box is also emptied — DOM). -/
def resetView (st : AppState) : AppState :=
  let st := { st with searchTerm := "", searchMatches := [], searchIndex := -1 }
  let st := highlightNode none false st
  let st := setStatus .viewReset "info" st
  if st.svgSet && st.zoomSet then { st with transform := .identityT } else st

/-- The synchronous head of `loadGraph(root)`: loading status plus the
search-state reset, performed before the `fetch` is awaited. -/
def loadGraphStart (root : Option String) (st : AppState) : AppState :=
  let st := setStatus (.loadingGraph root) "info" st
  { st with searchMatches := [], searchIndex := -1 }

/-- The continuation of `loadGraph(root)` after the awaited response:
`resp = none` is the catch branch (only a status notice); on success the
snapshot, current root, chain summary and (if present) package list are
installed, the graph is rebuilt, stats updated, and an active search term
re-applied without centering. -/
def loadGraphFinish (root : Option String) (resp : Option GraphData)
    (st : AppState) : AppState :=
  match resp with
  | none => setStatus .graphLoadFailed "error" st
  | some data =>
    let st := { st with
      graphData := some data,
      currentRoot := if optStrTruthy root then root else none,
      chainSummary := data.chainSummary }
    let st :=
      match data.thirdPartyPackages with
      | some pkgs =>
        renderThirdPartyPackageOptions
          { st with availableThirdPartyPackages := pkgs }
      | none => st
    let st := buildGraph data st
    let st := updateStats data st
    let st := setStatus (.graphLoaded root data.nodes.length) "success" st
    if strTruthy st.searchTerm then
      applySearchTerm true false st
    else st

/-- `loadGraph(root)` run to completion with response `resp`. -/
def loadGraph (root : Option String) (resp : Option GraphData)
    (st : AppState) : AppState :=
  loadGraphFinish root resp (loadGraphStart root st)

/-- `reloadDataAfterFilterChange({messageWhenCleared, statusLevel})`, with
the two awaited fetches materialized as `rootsResp` (for `loadRoots`) and
`graphResp` (for the `loadGraph` call, when one is reached). -/
def reloadDataAfterFilterChange (messageWhenCleared : Option String)
    (statusLevel : String) (rootsResp : Option RootsPayload)
    (graphResp : Option GraphData) (st : AppState) : AppState :=
  let previousRoot := st.currentRoot
  let hadFullGraph := !optStrTruthy previousRoot && st.graphData.isSome
  let res := loadRoots true rootsResp st
  let st1 := res.1
  if !res.2 then st1
  else if optStrTruthy previousRoot &&
      st1.roots.contains (previousRoot.getD "") then
    let st2 := { st1 with selectValue := previousRoot.getD "" }
    loadGraph previousRoot graphResp st2
  else if !optStrTruthy previousRoot && hadFullGraph then
    loadGraph none graphResp st1
  else
    let st2 := { st1 with currentRoot := none, graphData := none,
                          selectValue := "" }
    let st2 := clearGraphView (some "当前过滤条件下未加载任何链路，请选择起点。") st2
    let st2 := { st2 with chainSummary := none }
    let st2 := resetStatsDisplay st2
    if optStrTruthy messageWhenCleared then
      setStatus (.custom (messageWhenCleared.getD "")) statusLevel st2
    else st2

/-- The state mutation of the `exclude-third-party` checkbox handler up to
(not including) its `reloadDataAfterFilterChange` await: record the checkbox,
auto-fill the package selection with all known ids when enabling with an
empty selection, re-render the package options. -/
def toggleExcludeThirdParty (checked : Bool) (st : AppState) : AppState :=
  let st := { st with excludeThirdParty := checked }
  let st :=
    if st.excludeThirdParty && st.selectedThirdPartyPackages.length = 0 then
      { st with selectedThirdPartyPackages := getAllThirdPartyPackageIds st }
    else st
  renderThirdPartyPackageOptions st

/-- The key/value pairs `buildGraphDataUrl(root)` feeds `URLSearchParams`,
in insertion order. -/
def buildGraphDataParams (root : Option String) (st : AppState) :
    List (String × String) :=
  let p0 := [("root", if optStrTruthy root then root.getD "" else "all")]
  let p1 := if st.excludeSpring then p0 ++ [("excludeSpring", "true")] else p0
  if st.excludeThirdParty then
    let p2 := p1 ++ [("excludeThirdParty", "true")]
    if st.selectedThirdPartyPackages.length != 0 then
      p2 ++ [("thirdPartyPackages",
              String.intercalate "," st.selectedThirdPartyPackages)]
    else p2
  else p1

/-- `buildGraphDataUrl(root)` (modulo percent-encoding by `URLSearchParams`
and the `API_BASE` host prefix, which are transport formatting). -/
def buildGraphDataUrl (root : Option String) (st : AppState) : String :=
  "/graph-data?" ++
    String.intercalate "&"
      ((buildGraphDataParams root st).map (fun kv => kv.1 ++ "=" ++ kv.2))

/-- One rendered entry of `renderRelationList`: a clickable link button for
an id in the current `nodeById` map, or a plain span tagged "not in the
current view". -/
inductive RelationEntry where
  | clickable (id : String)
  | absentInView (id : String)
deriving DecidableEq

/-- `renderRelationList(items, type)` — the logical content of the list it
renders (`type` only names the data attribute). -/
def renderRelationList (st : AppState) (items : List String) :
    List RelationEntry :=
  items.map (fun item =>
    if (findNode st.nodeById item).isSome then .clickable item
    else .absentInView item)

/-- The click handler `renderRelationList` attaches to each relation button:
highlight-and-center plus panel re-render when the target is in the current
map, otherwise only the "not in current view" status. -/
def relationClick (target : String) (st : AppState) : AppState :=
  if (findNode st.nodeById target).isSome then
    showDetailsIfFound target (highlightNode (some target) true st)
  else
    setStatus .notInView "warn" st

/-- The documented search-state invariant: `searchIndex` is the none-marker
`-1` exactly when there are no matches, and otherwise a valid index. -/
def searchInvariant (st : AppState) : Prop :=
  (st.searchMatches = [] ∧ st.searchIndex = -1) ∨
  (0 ≤ st.searchIndex ∧ st.searchIndex < (st.searchMatches.length : Int))

/-- Projection used by the proofs: the displayed snapshot and current root. -/
def snapOf (st : AppState) : Option GraphData × Option String :=
  (st.graphData, st.currentRoot)

/-- Projection used by the proofs: the search navigation state. -/
def searchView (st : AppState) : List String × Int :=
  (st.searchMatches, st.searchIndex)

/-! ## Helper lemmas -/

theorem snapOf_setStatus (m : StatusMsg) (l : String) (st : AppState) :
    snapOf (setStatus m l st) = snapOf st := rfl

theorem snapOf_showDetails (n : Option Node) (st : AppState) :
    snapOf (showDetails n st) = snapOf st := rfl

theorem snapOf_updateStats (d : GraphData) (st : AppState) :
    snapOf (updateStats d st) = snapOf st := rfl

theorem snapOf_resetStatsDisplay (st : AppState) :
    snapOf (resetStatsDisplay st) = snapOf st := rfl

theorem snapOf_renderThirdPartyPackageOptions (st : AppState) :
    snapOf (renderThirdPartyPackageOptions st) = snapOf st := by
  unfold renderThirdPartyPackageOptions
  split <;> rfl

theorem snapOf_highlightNode (nid : Option String) (c : Bool) (st : AppState) :
    snapOf (highlightNode nid c st) = snapOf st := by
  unfold highlightNode
  repeat' split
  all_goals simp [snapOf, apply_ite AppState.graphData,
    apply_ite AppState.currentRoot]

theorem snapOf_buildGraph (d : GraphData) (st : AppState) :
    snapOf (buildGraph d st) = snapOf st := by
  unfold buildGraph
  split
  · rfl
  · rw [snapOf_showDetails, snapOf_highlightNode]
    simp [snapOf]

theorem snapOf_showDetailsIfFound (nodeId : String) (st : AppState) :
    snapOf (showDetailsIfFound nodeId st) = snapOf st := by
  unfold showDetailsIfFound
  split
  · rw [snapOf_showDetails]
  · rfl

theorem snapOf_applySearchTerm (r c : Bool) (st : AppState) :
    snapOf (applySearchTerm r c st) = snapOf st := by
  unfold applySearchTerm
  cases hsel : st.nodeSelection with
  | none => rfl
  | some ns =>
    simp only [apply_ite snapOf, snapOf_setStatus, snapOf_showDetailsIfFound,
      snapOf_highlightNode]
    simp [snapOf, apply_ite AppState.graphData, apply_ite AppState.currentRoot]

/-- A successful `loadRoots` returns `true`, installs the listed roots and
unused chains, and leaves the loaded snapshot and current root untouched. -/
theorem loadRoots_success (pres : Bool) (payload : RootsPayload)
    (st : AppState) :
    (loadRoots pres (some payload) st).2 = true ∧
    (loadRoots pres (some payload) st).1.roots = payload.roots.getD [] ∧
    (loadRoots pres (some payload) st).1.currentRoot = st.currentRoot ∧
    (loadRoots pres (some payload) st).1.graphData = st.graphData ∧
    (loadRoots pres (some payload) st).1.chainSummary = st.chainSummary ∧
    (loadRoots pres (some payload) st).1.nodeSelection = st.nodeSelection ∧
    (loadRoots pres (some payload) st).1.nodeById = st.nodeById ∧
    (loadRoots pres (some payload) st).1.searchTerm = st.searchTerm ∧
    (loadRoots pres (some payload) st).1.unusedChains
        = payload.unusedChains.getD [] := by
  unfold loadRoots renderThirdPartyPackageOptions setStatus
  repeat' split
  all_goals simp_all [apply_ite AppState.roots, apply_ite AppState.currentRoot,
    apply_ite AppState.graphData, apply_ite AppState.chainSummary,
    apply_ite AppState.nodeSelection, apply_ite AppState.nodeById,
    apply_ite AppState.searchTerm, apply_ite AppState.unusedChains]

/-- When a graph response is applied, it becomes the displayed snapshot and
the requested root the current root, whatever state the application was in. -/
theorem snapOf_loadGraphFinish_success (root : Option String) (d : GraphData)
    (st : AppState) :
    snapOf (loadGraphFinish root (some d) st)
        = (some d, if optStrTruthy root then root else none) := by
  unfold loadGraphFinish
  simp only [apply_ite snapOf, snapOf_setStatus, snapOf_applySearchTerm,
    snapOf_updateStats, snapOf_buildGraph, ite_self]
  split
  · rw [snapOf_renderThirdPartyPackageOptions]; rfl
  · rfl

/-- A successfully answered `loadGraph` displays exactly the fetched
snapshot, under exactly the requested root. -/
theorem loadGraph_success_snap (root : Option String) (d : GraphData)
    (st : AppState) :
    snapOf (loadGraph root (some d) st)
        = (some d, if optStrTruthy root then root else none) :=
  snapOf_loadGraphFinish_success root d (loadGraphStart root st)

theorem loadGraph_success_graphData (root : Option String) (d : GraphData)
    (st : AppState) : (loadGraph root (some d) st).graphData = some d :=
  congrArg Prod.fst (loadGraph_success_snap root d st)

theorem loadGraph_success_currentRoot (root : Option String) (d : GraphData)
    (st : AppState) : (loadGraph root (some d) st).currentRoot
        = (if optStrTruthy root then root else none) :=
  congrArg Prod.snd (loadGraph_success_snap root d st)

theorem toLowerStr_eq_empty_iff (s : String) : toLowerStr s = "" ↔ s = "" := by
  rcases s with ⟨d⟩
  simp [toLowerStr, String.ext_iff]

theorem searchView_setStatus (m : StatusMsg) (l : String) (st : AppState) :
    searchView (setStatus m l st) = searchView st := rfl

theorem searchView_showDetails (n : Option Node) (st : AppState) :
    searchView (showDetails n st) = searchView st := rfl

theorem searchView_showDetailsIfFound (nodeId : String) (st : AppState) :
    searchView (showDetailsIfFound nodeId st) = searchView st := by
  unfold showDetailsIfFound
  split
  · rw [searchView_showDetails]
  · rfl

theorem searchView_highlightNode (nid : Option String) (c : Bool)
    (st : AppState) : searchView (highlightNode nid c st) = searchView st := by
  unfold highlightNode
  repeat' split
  all_goals simp [searchView, apply_ite AppState.searchMatches,
    apply_ite AppState.searchIndex]

theorem highlightNode_sets_highlight (nid : Option String) (c : Bool)
    (st : AppState) (ns : List Node) (hsel : st.nodeSelection = some ns) :
    (highlightNode nid c st).highlightedNode = nid := by
  unfold highlightNode
  rw [hsel]
  simp [apply_ite AppState.highlightedNode]

theorem searchMatches_highlightNode (nid : Option String) (c : Bool)
    (st : AppState) :
    (highlightNode nid c st).searchMatches = st.searchMatches :=
  congrArg Prod.fst (searchView_highlightNode nid c st)

theorem searchIndex_highlightNode (nid : Option String) (c : Bool)
    (st : AppState) :
    (highlightNode nid c st).searchIndex = st.searchIndex :=
  congrArg Prod.snd (searchView_highlightNode nid c st)

theorem searchMatches_showDetailsIfFound (nodeId : String) (st : AppState) :
    (showDetailsIfFound nodeId st).searchMatches = st.searchMatches :=
  congrArg Prod.fst (searchView_showDetailsIfFound nodeId st)

theorem searchIndex_showDetailsIfFound (nodeId : String) (st : AppState) :
    (showDetailsIfFound nodeId st).searchIndex = st.searchIndex :=
  congrArg Prod.snd (searchView_showDetailsIfFound nodeId st)

theorem highlightedNode_showDetailsIfFound (nodeId : String) (st : AppState) :
    (showDetailsIfFound nodeId st).highlightedNode = st.highlightedNode := by
  unfold showDetailsIfFound
  split <;> rfl

theorem nodeSelection_highlightNode (nid : Option String) (c : Bool)
    (st : AppState) :
    (highlightNode nid c st).nodeSelection = st.nodeSelection := by
  unfold highlightNode
  repeat' split
  all_goals simp [apply_ite AppState.nodeSelection]

theorem nodeSelection_showDetailsIfFound (nodeId : String) (st : AppState) :
    (showDetailsIfFound nodeId st).nodeSelection = st.nodeSelection := by
  unfold showDetailsIfFound
  split <;> rfl

theorem jsMod_eq_emod (a b : Int) (ha : 0 ≤ a) (hb : 0 ≤ b) :
    jsMod a b = a % b := by
  unfold jsMod
  obtain ⟨m, rfl⟩ := Int.eq_ofNat_of_zero_le ha
  obtain ⟨n, rfl⟩ := Int.eq_ofNat_of_zero_le hb
  rfl

/-- One `stepSearch` from a live selection with matches and a non-negative
index: the index moves by `offset` cyclically, everything the stepping reads
is preserved. -/
theorem stepSearch_fields (off : Int) (st : AppState) (ns : List Node)
    (hsel : st.nodeSelection = some ns) (hne : st.searchMatches ≠ [])
    (h0 : 0 ≤ st.searchIndex) :
    (stepSearch off st).searchIndex
        = jsMod (st.searchIndex + off + st.searchMatches.length)
            st.searchMatches.length ∧
    (stepSearch off st).searchMatches = st.searchMatches ∧
    (stepSearch off st).nodeSelection = st.nodeSelection := by
  unfold stepSearch
  simp [hsel, hne, not_lt.mpr h0, searchIndex_highlightNode,
    searchIndex_showDetailsIfFound, searchMatches_highlightNode,
    searchMatches_showDetailsIfFound, nodeSelection_highlightNode,
    nodeSelection_showDetailsIfFound, setStatus]

theorem filter_then_map {α β : Type} (f : α → β) (p : β → Bool)
    (l : List α) :
    (l.filter (fun d => p (f d))).map f = (l.map f).filter p := by
  induction l with
  | nil => rfl
  | cons a l ih => by_cases h : p (f a) <;> simp [List.filter_cons, h, ih]

/-! ## Claims -/

/-- C1: for a filter mutation whose roots re-fetch succeeds, if the root
selected before the mutation is non-empty and still present in the re-fetched
root list, reconciliation keeps it as the current root and reloads its
subgraph (the fetched graph becomes the displayed snapshot). -/
theorem reload_keeps_surviving_root
    (msg : Option String) (lvl : String) (payload : RootsPayload)
    (data : GraphData) (st : AppState) (p : String)
    (hroot : st.currentRoot = some p) (hp : p ≠ "")
    (hin : (payload.roots.getD []).contains p = true) :
    (reloadDataAfterFilterChange msg lvl (some payload) (some data)
        st).currentRoot = some p ∧
    (reloadDataAfterFilterChange msg lvl (some payload) (some data)
        st).graphData = some data := by
  have hL := loadRoots_success true payload st
  have hmem : p ∈ payload.roots.getD [] := by simpa using hin
  unfold reloadDataAfterFilterChange
  simp only [hroot]
  simp [hL.1, hL.2.1, hmem, optStrTruthy, strTruthy, bne_iff_ne, hp,
    loadGraph_success_graphData, loadGraph_success_currentRoot]

theorem reload_keeps_surviving_root_check :
    (reloadDataAfterFilterChange (some "m") "warn"
        (some ⟨some ["A"], some [], none⟩)
        (some ⟨[⟨"A", "A", [], [], true, true, false, 0⟩], [], ["A"],
               none, false, none⟩)
        { initState with currentRoot := some "A" }).currentRoot = some "A" ∧
    (reloadDataAfterFilterChange (some "m") "warn"
        (some ⟨some ["A"], some [], none⟩)
        (some ⟨[⟨"A", "A", [], [], true, true, false, 0⟩], [], ["A"],
               none, false, none⟩)
        { initState with currentRoot := some "A" }).graphData
      = some ⟨[⟨"A", "A", [], [], true, true, false, 0⟩], [], ["A"],
              none, false, none⟩ :=
  reload_keeps_surviving_root (some "m") "warn" _ _ _ "A" rfl
    (by decide) (by decide)

/-- C2: for a filter mutation whose roots re-fetch succeeds but no longer
lists the previously selected root, reconciliation clears the view: the
current root becomes none, the snapshot is dropped and the rendered graph
blanked behind the placeholder, the chain summary is cleared, and the
caller-supplied "view cleared" notice is surfaced at the caller's level. -/
theorem reload_clears_filtered_out_root
    (m lvl : String) (payload : RootsPayload) (graphResp : Option GraphData)
    (st : AppState) (p : String)
    (hroot : st.currentRoot = some p) (hp : p ≠ "") (hm : m ≠ "")
    (hnotin : (payload.roots.getD []).contains p = false) :
    (reloadDataAfterFilterChange (some m) lvl (some payload) graphResp
        st).currentRoot = none ∧
    (reloadDataAfterFilterChange (some m) lvl (some payload) graphResp
        st).graphData = none ∧
    (reloadDataAfterFilterChange (some m) lvl (some payload) graphResp
        st).nodeSelection = none ∧
    (reloadDataAfterFilterChange (some m) lvl (some payload) graphResp
        st).placeholder = some "当前过滤条件下未加载任何链路，请选择起点。" ∧
    (reloadDataAfterFilterChange (some m) lvl (some payload) graphResp
        st).chainSummary = none ∧
    (reloadDataAfterFilterChange (some m) lvl (some payload) graphResp
        st).highlightedNode = none ∧
    (reloadDataAfterFilterChange (some m) lvl (some payload) graphResp
        st).status = some (.custom m, lvl) := by
  have hL := loadRoots_success true payload st
  have hmem : p ∉ payload.roots.getD [] := by simpa using hnotin
  have hcm : strTruthy "当前过滤条件下未加载任何链路，请选择起点。" = true := by decide
  unfold reloadDataAfterFilterChange
  simp only [hroot]
  simp [hL.1, hL.2.1, hmem, optStrTruthy, strTruthy, bne_iff_ne, hp, hm,
    clearGraphView, highlightNode, showDetails, resetStatsDisplay, setStatus]

theorem reload_clears_filtered_out_root_check :
    (reloadDataAfterFilterChange (some "m") "warn"
        (some ⟨some ["B"], some [], none⟩) none
        { initState with currentRoot := some "A" }).currentRoot = none ∧
    (reloadDataAfterFilterChange (some "m") "warn"
        (some ⟨some ["B"], some [], none⟩) none
        { initState with currentRoot := some "A" }).graphData = none ∧
    (reloadDataAfterFilterChange (some "m") "warn"
        (some ⟨some ["B"], some [], none⟩) none
        { initState with currentRoot := some "A" }).status
      = some (.custom "m", "warn") :=
  have h := reload_clears_filtered_out_root "m" "warn"
    ⟨some ["B"], some [], none⟩ none { initState with currentRoot := some "A" }
    "A" rfl (by decide) (by decide) (by decide)
  ⟨h.1, h.2.1, h.2.2.2.2.2.2⟩

/-- C3 counterexample: when the roots listing fetch of a filter mutation
fails, prior state is NOT left entirely untouched — the roots list, the
unused-chain list and the displayed statistics are clobbered by `loadRoots`'s
catch branch before the reconciliation returns. -/
theorem reload_listing_failure_mutates_lists :
    (reloadDataAfterFilterChange (some "m") "warn" none none
        { initState with roots := ["A"], currentRoot := some "A",
                         unusedChains := [⟨"A", 2, 1⟩],
                         stats := ⟨2, 1, 1, 1⟩ }).roots ≠ ["A"] ∧
    (reloadDataAfterFilterChange (some "m") "warn" none none
        { initState with roots := ["A"], currentRoot := some "A",
                         unusedChains := [⟨"A", 2, 1⟩],
                         stats := ⟨2, 1, 1, 1⟩ }).unusedChains
      ≠ [⟨"A", 2, 1⟩] ∧
    (reloadDataAfterFilterChange (some "m") "warn" none none
        { initState with roots := ["A"], currentRoot := some "A",
                         unusedChains := [⟨"A", 2, 1⟩],
                         stats := ⟨2, 1, 1, 1⟩ }).stats ≠ ⟨2, 1, 1, 1⟩ := by
  decide

/-- C3 (amended): if the roots listing fetch fails, reconciliation aborts
before any root/graph change — the displayed snapshot, current root, chain
summary, rendered selection, highlight and search state stay untouched — but
the roots list, unused-chain list and third-party package lists are emptied,
the displayed statistics are zeroed, and a roots-load-failure status is
shown. -/
theorem reload_listing_failure_aborts (msg : Option String) (lvl : String)
    (graphResp : Option GraphData) (st : AppState) :
    (reloadDataAfterFilterChange msg lvl none graphResp st).graphData
        = st.graphData ∧
    (reloadDataAfterFilterChange msg lvl none graphResp st).currentRoot
        = st.currentRoot ∧
    (reloadDataAfterFilterChange msg lvl none graphResp st).chainSummary
        = st.chainSummary ∧
    (reloadDataAfterFilterChange msg lvl none graphResp st).nodeSelection
        = st.nodeSelection ∧
    (reloadDataAfterFilterChange msg lvl none graphResp st).highlightedNode
        = st.highlightedNode ∧
    (reloadDataAfterFilterChange msg lvl none graphResp st).placeholder
        = st.placeholder ∧
    (reloadDataAfterFilterChange msg lvl none graphResp st).searchMatches
        = st.searchMatches ∧
    (reloadDataAfterFilterChange msg lvl none graphResp st).searchIndex
        = st.searchIndex ∧
    (reloadDataAfterFilterChange msg lvl none graphResp st).roots = [] ∧
    (reloadDataAfterFilterChange msg lvl none graphResp st).unusedChains
        = [] ∧
    (reloadDataAfterFilterChange msg lvl none graphResp
        st).availableThirdPartyPackages = [] ∧
    (reloadDataAfterFilterChange msg lvl none graphResp
        st).selectedThirdPartyPackages = [] ∧
    (reloadDataAfterFilterChange msg lvl none graphResp st).stats
        = ⟨0, 0, 0, 0⟩ ∧
    (reloadDataAfterFilterChange msg lvl none graphResp st).status
        = some (.rootsLoadFailed, "error") := by
  unfold reloadDataAfterFilterChange loadRoots renderThirdPartyPackageOptions
    resetStatsDisplay setStatus getAllThirdPartyPackageIds
  repeat' split
  all_goals simp_all

/-- C4: enabling `excludeThirdParty` while the package sub-selection is
empty populates the selection with all known third-party package ids; and
every graph-data query built under `excludeThirdParty` with a non-empty
selection carries the explicit comma-joined package list. -/
theorem thirdparty_autofill_and_query :
    (∀ st : AppState, st.selectedThirdPartyPackages = [] →
        (toggleExcludeThirdParty true st).selectedThirdPartyPackages
          = getAllThirdPartyPackageIds st) ∧
    (∀ (root : Option String) (st : AppState), st.excludeThirdParty = true →
        st.selectedThirdPartyPackages ≠ [] →
        ("thirdPartyPackages",
            String.intercalate "," st.selectedThirdPartyPackages)
          ∈ buildGraphDataParams root st) := by
  constructor
  · intro st hsel
    unfold toggleExcludeThirdParty renderThirdPartyPackageOptions
    simp [hsel, getAllThirdPartyPackageIds]
    split
    · apply List.filter_eq_self.mpr
      intro a ha
      simpa using ha
    · rfl
  · intro root st hex hne
    unfold buildGraphDataParams
    simp [hex, hne]

theorem thirdparty_autofill_and_query_check :
    (toggleExcludeThirdParty true
        { initState with availableThirdPartyPackages :=
            [⟨some "pkg1", none, none, none⟩, ⟨some "pkg2", none, none,
             none⟩] }).selectedThirdPartyPackages
      = getAllThirdPartyPackageIds
          { initState with availableThirdPartyPackages :=
              [⟨some "pkg1", none, none, none⟩, ⟨some "pkg2", none, none,
               none⟩] } ∧
    ("thirdPartyPackages", String.intercalate "," ["pkg1", "pkg2"])
      ∈ buildGraphDataParams none
          { initState with excludeThirdParty := true,
                           selectedThirdPartyPackages := ["pkg1", "pkg2"] } :=
  ⟨thirdparty_autofill_and_query.1 _ rfl,
   thirdparty_autofill_and_query.2 none _ rfl (by decide)⟩

/-- C5 counterexample: two sequential graph loads are initiated for root "A"
and then root "B", and their responses resolve out of order (B's first, A's
second).  The displayed snapshot ends up being A's — the stale response of
the earlier-initiated request overwrites the later-initiated one; `loadGraph`
carries no request sequencing or staleness guard. -/
theorem stale_response_overwrites_newer :
    (loadGraphFinish (some "A")
        (some ⟨[⟨"A", "A", [], [], true, true, false, 0⟩], [], ["A", "B"],
               none, false, none⟩)
        (loadGraphFinish (some "B")
          (some ⟨[⟨"B", "B", [], [], true, true, false, 0⟩], [], ["A", "B"],
                 none, false, none⟩)
          (loadGraphStart (some "B")
            (loadGraphStart (some "A")
              { initState with roots := ["A", "B"] })))).currentRoot
      = some "A" ∧
    (loadGraphFinish (some "A")
        (some ⟨[⟨"A", "A", [], [], true, true, false, 0⟩], [], ["A", "B"],
               none, false, none⟩)
        (loadGraphFinish (some "B")
          (some ⟨[⟨"B", "B", [], [], true, true, false, 0⟩], [], ["A", "B"],
                 none, false, none⟩)
          (loadGraphStart (some "B")
            (loadGraphStart (some "A")
              { initState with roots := ["A", "B"] })))).graphData
      ≠ some ⟨[⟨"B", "B", [], [], true, true, false, 0⟩], [], ["A", "B"],
              none, false, none⟩ := by
  decide

/-- C5 (amended): with overlapping loads, the snapshot displayed at the end
is the one whose response resolved (was applied) last, regardless of which
request was initiated last; the code has no stale-response guard. -/
theorem last_resolved_response_wins (r1 r2 : Option String)
    (d1 d2 : GraphData) (st : AppState) :
    (loadGraphFinish r1 (some d1)
        (loadGraphFinish r2 (some d2) st)).graphData = some d1 ∧
    (loadGraphFinish r1 (some d1)
        (loadGraphFinish r2 (some d2) st)).currentRoot
      = (if optStrTruthy r1 then r1 else none) :=
  ⟨congrArg Prod.fst
      (snapOf_loadGraphFinish_success r1 d1 (loadGraphFinish r2 (some d2) st)),
   congrArg Prod.snd
      (snapOf_loadGraphFinish_success r1 d1 (loadGraphFinish r2 (some d2) st))⟩

/-- C6: while a snapshot is rendered, a search-term edit (i) recomputes
`searchMatches` as exactly the ids of the rendered nodes whose id contains
the trimmed term case-insensitively, in the snapshot's node iteration order;
(ii) resets `searchIndex` to 0 when any match exists and to the none-marker
-1 otherwise; and (iii) on the empty term always yields no matches, index
none and no highlight, regardless of prior search state. -/
theorem set_term_recomputes_matches (v : String) (st : AppState)
    (ns : List Node) (hsel : st.nodeSelection = some ns) :
    ((handleSearchInput v st).searchMatches
        = if jsTrim v = "" then []
          else (ns.map (fun d => d.id)).filter
                 (fun i => jsIncludes (toLowerStr i) (toLowerStr (jsTrim v)))) ∧
    ((handleSearchInput v st).searchMatches ≠ [] →
        (handleSearchInput v st).searchIndex = 0) ∧
    ((handleSearchInput v st).searchMatches = [] →
        (handleSearchInput v st).searchIndex = -1) ∧
    (jsTrim v = "" → (handleSearchInput v st).highlightedNode = none) := by
  unfold handleSearchInput applySearchTerm
  simp only [hsel]
  by_cases hv : jsTrim v = ""
  · have h00 : toLowerStr "" = "" := rfl
    simp [hv, h00, strTruthy, bne_self_eq_false, setStatus, highlightNode,
      hsel]
  · have h1 : strTruthy (toLowerStr (jsTrim v)) = true := by
      simp [strTruthy, bne_iff_ne, toLowerStr_eq_empty_iff, hv]
    simp only [hv, h1]
    by_cases hml : ∃ x ∈ ns, jsIncludes (toLowerStr x.id) (toLowerStr (jsTrim v))
        = true
    · simp [hml, hv, searchMatches_highlightNode, searchIndex_highlightNode,
        searchMatches_showDetailsIfFound, searchIndex_showDetailsIfFound,
        setStatus]
      exact filter_then_map (fun d => d.id)
        (fun i => jsIncludes (toLowerStr i) (toLowerStr (jsTrim v))) ns
    · simp [hml, hv, setStatus, highlightNode, hsel]
      exact filter_then_map (fun d => d.id)
        (fun i => jsIncludes (toLowerStr i) (toLowerStr (jsTrim v))) ns

theorem set_term_recomputes_matches_check :
    (handleSearchInput "b"
        { initState with
            nodeSelection := some [⟨"A", "A", ["B"], [], true, true, false, 0⟩,
              ⟨"B", "B", [], ["A"], false, false, false, 1⟩],
            nodeById := [⟨"A", "A", ["B"], [], true, true, false, 0⟩,
              ⟨"B", "B", [], ["A"], false, false, false, 1⟩] }).searchMatches
      = ["B"] ∧
    (handleSearchInput "b"
        { initState with
            nodeSelection := some [⟨"A", "A", ["B"], [], true, true, false, 0⟩,
              ⟨"B", "B", [], ["A"], false, false, false, 1⟩],
            nodeById := [⟨"A", "A", ["B"], [], true, true, false, 0⟩,
              ⟨"B", "B", [], ["A"], false, false, false, 1⟩] }).searchIndex
      = 0 := by
  have h := set_term_recomputes_matches "b"
    { initState with
        nodeSelection := some [⟨"A", "A", ["B"], [], true, true, false, 0⟩,
          ⟨"B", "B", [], ["A"], false, false, false, 1⟩],
        nodeById := [⟨"A", "A", ["B"], [], true, true, false, 0⟩,
          ⟨"B", "B", [], ["A"], false, false, false, 1⟩] }
    [⟨"A", "A", ["B"], [], true, true, false, 0⟩,
     ⟨"B", "B", [], ["A"], false, false, false, 1⟩] rfl
  refine ⟨?_, h.2.1 ?_⟩
  · rw [h.1]; decide
  · rw [h.1]; decide

/-- `k` steps from a valid search state: the index translates by `k·offset`
cyclically, and the match list and selection are untouched. -/
theorem stepSearch_iter (off : Int) (hoff : off = 1 ∨ off = -1)
    (st : AppState) (ns : List Node) (hsel : st.nodeSelection = some ns)
    (hne : st.searchMatches ≠ []) (h0 : 0 ≤ st.searchIndex)
    (h1 : st.searchIndex < (st.searchMatches.length : Int)) (k : Nat) :
    ((stepSearch off)^[k] st).searchIndex
        = (st.searchIndex + k * off) % (st.searchMatches.length : Int) ∧
    ((stepSearch off)^[k] st).searchMatches = st.searchMatches ∧
    ((stepSearch off)^[k] st).nodeSelection = st.nodeSelection := by
  have hn : (0 : Int) < (st.searchMatches.length : Int) := by
    have := List.length_pos.mpr hne
    exact_mod_cast this
  induction k with
  | zero =>
    simp [Int.emod_eq_of_lt h0 h1]
  | succ k ih =>
    obtain ⟨hI, hM, hS⟩ := ih
    have hknn : 0 ≤ ((stepSearch off)^[k] st).searchIndex := by
      rw [hI]
      exact Int.emod_nonneg _ (by omega)
    have hstep := stepSearch_fields off ((stepSearch off)^[k] st) ns
      (by rw [hS, hsel]) (by rw [hM]; exact hne) hknn
    rw [Function.iterate_succ_apply']
    refine ⟨?_, ?_, ?_⟩
    · rw [hstep.1, hM, hI]
      have hx := Int.emod_nonneg (st.searchIndex + (k : Int) * off)
        (ne_of_gt hn)
      rw [jsMod_eq_emod _ _ (by rcases hoff with h | h <;> omega) (le_of_lt hn)]
      rw [Int.add_emod_self, Int.emod_add_emod]
      congr 1
      push_cast
      ring
    · rw [hstep.2.1, hM]
    · rw [hstep.2.2, hS]

/-- C7: from any valid search state with at least one match, applying
`stepSearch` `matchCount` times in either direction returns `searchIndex` to
its starting value (stepping is cyclic modulo the match count). -/
theorem step_search_cyclic (st : AppState) (ns : List Node)
    (hsel : st.nodeSelection = some ns) (hne : st.searchMatches ≠ [])
    (h0 : 0 ≤ st.searchIndex)
    (h1 : st.searchIndex < (st.searchMatches.length : Int)) :
    ((stepSearch 1)^[st.searchMatches.length] st).searchIndex
        = st.searchIndex ∧
    ((stepSearch (-1))^[st.searchMatches.length] st).searchIndex
        = st.searchIndex := by
  constructor
  · rw [(stepSearch_iter 1 (Or.inl rfl) st ns hsel hne h0 h1 _).1,
      Int.add_mul_emod_self_left, Int.emod_eq_of_lt h0 h1]
  · rw [(stepSearch_iter (-1) (Or.inr rfl) st ns hsel hne h0 h1 _).1,
      Int.add_mul_emod_self_left, Int.emod_eq_of_lt h0 h1]

theorem step_search_cyclic_check :
    ((stepSearch 1)^[3]
        { initState with
            nodeSelection := some [⟨"a1", "a1", [], [], true, true, false, 0⟩],
            searchMatches := ["a1", "a2", "a3"],
            searchIndex := 1 }).searchIndex = 1 ∧
    ((stepSearch (-1))^[3]
        { initState with
            nodeSelection := some [⟨"a1", "a1", [], [], true, true, false, 0⟩],
            searchMatches := ["a1", "a2", "a3"],
            searchIndex := 1 }).searchIndex = 1 :=
  step_search_cyclic
    { initState with
        nodeSelection := some [⟨"a1", "a1", [], [], true, true, false, 0⟩],
        searchMatches := ["a1", "a2", "a3"],
        searchIndex := 1 }
    [⟨"a1", "a1", [], [], true, true, false, 0⟩] rfl
    (by decide) (by decide) (by decide)

/-- `applySearchTerm` re-establishes the search-state invariant from any
invariant-satisfying prior state. -/
theorem searchInvariant_applySearchTerm (r c : Bool) (st : AppState)
    (hinv : searchInvariant st) : searchInvariant (applySearchTerm r c st) := by
  unfold applySearchTerm
  cases hsel : st.nodeSelection with
  | none => simp [searchInvariant]
  | some ns =>
    unfold searchInvariant at hinv ⊢
    by_cases hM : (List.filter (fun d => strTruthy (toLowerStr st.searchTerm)
        && jsIncludes (toLowerStr d.id) (toLowerStr st.searchTerm)) ns) = []
    · simp only [hM]
      simp [searchMatches_highlightNode, searchIndex_highlightNode,
        searchMatches_showDetailsIfFound, searchIndex_showDetailsIfFound,
        setStatus, apply_ite AppState.searchIndex,
        apply_ite AppState.searchMatches]
      repeat' split
      all_goals simp_all
    · have hlen : 0 < (List.filter (fun d =>
          strTruthy (toLowerStr st.searchTerm) &&
            jsIncludes (toLowerStr d.id) (toLowerStr st.searchTerm))
          ns).length := List.length_pos.mpr hM
      have hterm : strTruthy (toLowerStr st.searchTerm) = true := by
        by_contra hc
        apply hM
        simp [Bool.not_eq_true] at hc
        simp [hc]
      simp only [hterm, Bool.true_and]
      simp [searchMatches_highlightNode, searchIndex_highlightNode,
        searchMatches_showDetailsIfFound, searchIndex_showDetailsIfFound,
        setStatus, apply_ite AppState.searchIndex,
        apply_ite AppState.searchMatches]
      simp only [hterm, Bool.true_and] at hlen
      repeat' split
      all_goals simp_all
      all_goals omega

theorem searchView_updateStats (d : GraphData) (st : AppState) :
    searchView (updateStats d st) = searchView st := rfl

theorem searchView_renderThirdPartyPackageOptions (st : AppState) :
    searchView (renderThirdPartyPackageOptions st) = searchView st := by
  unfold renderThirdPartyPackageOptions
  split <;> rfl

theorem searchView_buildGraph (d : GraphData) (st : AppState) :
    searchView (buildGraph d st) = searchView st := by
  unfold buildGraph
  split
  · rfl
  · rw [searchView_showDetails, searchView_highlightNode]
    rfl

theorem searchInvariant_congr {a b : AppState}
    (h : searchView a = searchView b) (hb : searchInvariant b) :
    searchInvariant a := by
  unfold searchInvariant at hb ⊢
  have h1 : a.searchMatches = b.searchMatches := congrArg Prod.fst h
  have h2 : a.searchIndex = b.searchIndex := congrArg Prod.snd h
  rw [h1, h2]
  exact hb

/-- Applying any graph response preserves the search-state invariant. -/
theorem searchInvariant_loadGraphFinish (root : Option String)
    (resp : Option GraphData) (st : AppState) (hinv : searchInvariant st) :
    searchInvariant (loadGraphFinish root resp st) := by
  cases resp with
  | none => exact hinv
  | some d =>
    simp only [loadGraphFinish]
    cases hpk : d.thirdPartyPackages <;> simp only [hpk] <;> repeat' split
    all_goals
      first
        | exact searchInvariant_congr
            (by simp only [searchView_setStatus, searchView_updateStats,
                  searchView_buildGraph,
                  searchView_renderThirdPartyPackageOptions]
                rfl) hinv
        | (apply searchInvariant_applySearchTerm
           exact searchInvariant_congr
            (by simp only [searchView_setStatus, searchView_updateStats,
                  searchView_buildGraph,
                  searchView_renderThirdPartyPackageOptions]
                rfl) hinv)

/-- C8: every operation that touches search state — term edit, forward or
backward step, snapshot load (either outcome), view clear, view reset —
leaves `searchIndex` either at the none-marker (exactly when `searchMatches`
is empty) or at a valid index into `searchMatches`. -/
theorem search_state_invariant (st : AppState) (hinv : searchInvariant st) :
    (∀ v, searchInvariant (handleSearchInput v st)) ∧
    (∀ r c, searchInvariant (applySearchTerm r c st)) ∧
    (∀ off : Int, off = 1 ∨ off = -1 →
        searchInvariant (stepSearch off st)) ∧
    (∀ m, searchInvariant (clearGraphView m st)) ∧
    (∀ root resp, searchInvariant (loadGraph root resp st)) ∧
    searchInvariant (resetView st) := by
  refine ⟨?_, fun r c => searchInvariant_applySearchTerm r c st hinv,
    ?_, ?_, ?_, ?_⟩
  · intro v
    unfold handleSearchInput
    cases hsel : st.nodeSelection with
    | none =>
      simp only [hsel]
      split <;> simp [searchInvariant, setStatus]
    | some ns =>
      simp only [hsel]
      exact searchInvariant_applySearchTerm _ _ _ hinv
  · intro off hoff
    cases hsel : st.nodeSelection with
    | none =>
      unfold stepSearch
      simp only [hsel, Option.isNone_none, Bool.true_or, Bool.true_eq,
        if_true]
      split <;> exact hinv
    | some ns =>
      by_cases hm : st.searchMatches = []
      · unfold stepSearch
        simp only [hsel, hm, List.length_nil, Option.isNone_some,
          Bool.false_or, decide_True, Bool.true_eq, if_true]
        split <;> exact hinv
      · have h0 : 0 ≤ st.searchIndex := by
          rcases hinv with ⟨h1, h2⟩ | ⟨h1, h2⟩
          · exact absurd h1 hm
          · exact h1
        have hlen : 0 < st.searchMatches.length := List.length_pos.mpr hm
        have hlen1 : (1 : Int) ≤ (st.searchMatches.length : Int) := by
          exact_mod_cast hlen
        have hf := stepSearch_fields off st ns hsel hm h0
        unfold searchInvariant
        right
        rw [hf.1, hf.2.1,
          jsMod_eq_emod _ _ (by rcases hoff with h | h <;> omega) (by omega)]
        exact ⟨Int.emod_nonneg _ (by omega),
          Int.emod_lt_of_pos _ (by omega)⟩
  · intro m
    simp [clearGraphView, highlightNode, showDetails, searchInvariant]
  · intro root resp
    apply searchInvariant_loadGraphFinish
    simp [loadGraphStart, setStatus, searchInvariant]
  · have hv : searchView (resetView st) = ([], -1) := by
      unfold resetView
      simp [searchView, apply_ite searchView, apply_ite AppState.searchMatches,
        apply_ite AppState.searchIndex, searchMatches_highlightNode,
        searchIndex_highlightNode, setStatus]
    unfold searchInvariant
    exact Or.inl ⟨congrArg Prod.fst hv, congrArg Prod.snd hv⟩

theorem search_state_invariant_check :
    searchInvariant (handleSearchInput "a" initState) ∧
    searchInvariant (stepSearch 1 initState) ∧
    searchInvariant (resetView initState) :=
  ⟨(search_state_invariant initState (Or.inl ⟨rfl, rfl⟩)).1 "a",
   (search_state_invariant initState (Or.inl ⟨rfl, rfl⟩)).2.2.1 1
     (Or.inl rfl),
   (search_state_invariant initState (Or.inl ⟨rfl, rfl⟩)).2.2.2.2.2⟩

theorem nodeById_highlightNode (nid : Option String) (c : Bool)
    (st : AppState) : (highlightNode nid c st).nodeById = st.nodeById := by
  unfold highlightNode
  repeat' split
  all_goals simp [apply_ite AppState.nodeById]

theorem transform_showDetailsIfFound (nodeId : String) (st : AppState) :
    (showDetailsIfFound nodeId st).transform = st.transform := by
  unfold showDetailsIfFound
  split <;> rfl

theorem detailsNode_showDetailsIfFound_found (nodeId : String)
    (st : AppState) (node : Node)
    (h : findNode st.nodeById nodeId = some node) :
    (showDetailsIfFound nodeId st).detailsNode = some node.id := by
  unfold showDetailsIfFound
  rw [h]
  rfl

theorem highlightNode_centers (target : String) (st : AppState)
    (ns : List Node) (hsel : st.nodeSelection = some ns)
    (ht : target ≠ "") (hz : st.zoomSet = true) (hs : st.svgSet = true)
    (hany : (ns.any (fun d => d.id == target)) = true) :
    (highlightNode (some target) true st).transform
      = .centeredOn target := by
  unfold highlightNode
  rw [hsel]
  simp [optStrTruthy, strTruthy, bne_iff_ne, ht, hz, hs, hany]

/-- C9: clicking a dependency/dependent id in the detail panel, when the id
is not in the current snapshot's node map, surfaces only the "not in current
view" notice and leaves the highlighted node, detail panel and viewport
transform unchanged; when it is present (and rendered, with live zoom/svg),
it highlights the node, centers the viewport on it and re-renders the panel
for it. -/
theorem relation_click_safe (st : AppState) (target : String) :
    (findNode st.nodeById target = none →
        (relationClick target st).highlightedNode = st.highlightedNode ∧
        (relationClick target st).detailsNode = st.detailsNode ∧
        (relationClick target st).transform = st.transform ∧
        (relationClick target st).status = some (.notInView, "warn")) ∧
    (∀ node ns, findNode st.nodeById target = some node →
        st.nodeSelection = some ns → target ≠ "" →
        st.zoomSet = true → st.svgSet = true →
        (ns.any (fun d => d.id == target)) = true →
        (relationClick target st).highlightedNode = some target ∧
        (relationClick target st).transform = .centeredOn target ∧
        (relationClick target st).detailsNode = some node.id) := by
  constructor
  · intro h
    simp [relationClick, h, setStatus]
  · intro node ns hfind hsel ht hz hs hany
    have hfound : (findNode st.nodeById target).isSome = true := by
      rw [hfind]; rfl
    have hfind2 : findNode (highlightNode (some target) true st).nodeById
        target = some node := by
      rw [nodeById_highlightNode, hfind]
    refine ⟨?_, ?_, ?_⟩
    · rw [relationClick, if_pos hfound, highlightedNode_showDetailsIfFound,
        highlightNode_sets_highlight (some target) true st ns hsel]
    · rw [relationClick, if_pos hfound, transform_showDetailsIfFound,
        highlightNode_centers target st ns hsel ht hz hs hany]
    · rw [relationClick, if_pos hfound,
        detailsNode_showDetailsIfFound_found _ _ _ hfind2]

theorem relation_click_safe_check :
    (relationClick "X"
        { initState with
            nodeById := [⟨"A", "A", [], [], true, true, false, 0⟩] }).status
        = some (.notInView, "warn") ∧
    (relationClick "X"
        { initState with
            nodeById := [⟨"A", "A", [], [], true, true, false, 0⟩]
          }).highlightedNode = none ∧
    (relationClick "A"
        { initState with
            nodeById := [⟨"A", "A", [], [], true, true, false, 0⟩],
            nodeSelection := some [⟨"A", "A", [], [], true, true, false, 0⟩],
            zoomSet := true, svgSet := true }).highlightedNode = some "A" ∧
    (relationClick "A"
        { initState with
            nodeById := [⟨"A", "A", [], [], true, true, false, 0⟩],
            nodeSelection := some [⟨"A", "A", [], [], true, true, false, 0⟩],
            zoomSet := true, svgSet := true }).transform
        = .centeredOn "A" := by
  have h1 := (relation_click_safe
    { initState with
        nodeById := [⟨"A", "A", [], [], true, true, false, 0⟩] } "X").1
    (by decide)
  have h2 := (relation_click_safe
    { initState with
        nodeById := [⟨"A", "A", [], [], true, true, false, 0⟩],
        nodeSelection := some [⟨"A", "A", [], [], true, true, false, 0⟩],
        zoomSet := true, svgSet := true } "A").2
    ⟨"A", "A", [], [], true, true, false, 0⟩
    [⟨"A", "A", [], [], true, true, false, 0⟩]
    (by decide) rfl (by decide) rfl rfl (by decide)
  exact ⟨h1.2.2.2, h1.1, h2.1, h2.2.1⟩

/-- C10: `loadGraph` clears the search match list and index before its fetch
is awaited; on a failing load the previously displayed snapshot, root and
rendered selection are untouched but the search navigation state stays
cleared (the failure path does not restore it), with only a failure status
surfaced. -/
theorem load_failure_keeps_cleared_search (root : Option String)
    (st : AppState) :
    (loadGraphStart root st).searchMatches = [] ∧
    (loadGraphStart root st).searchIndex = -1 ∧
    (loadGraphStart root st).graphData = st.graphData ∧
    (loadGraph root none st).graphData = st.graphData ∧
    (loadGraph root none st).currentRoot = st.currentRoot ∧
    (loadGraph root none st).nodeSelection = st.nodeSelection ∧
    (loadGraph root none st).highlightedNode = st.highlightedNode ∧
    (loadGraph root none st).searchMatches = [] ∧
    (loadGraph root none st).searchIndex = -1 ∧
    (loadGraph root none st).status = some (.graphLoadFailed, "error") := by
  simp [loadGraph, loadGraphFinish, loadGraphStart, setStatus]

end BeanAnalyze
